import Mathlib

/-!
# Verification of the ACDynamicLoad device-communication and polling subsystem

Shallow embedding of the SCPI command layer (`scpiHelper.ts`), the IPC
control-surface handlers (`electron/index.ts`) and the polling / CSV-logging
helper (`pollHelper.ts`).  JavaScript numbers are modelled as `ℚ`,
`Math.round` and `toFixed(2)` as explicit floor-based rounding, and the
asynchronous event-driven parts (socket data vs. timeout races, interleaving
of `stopPollingCDS` with an in-flight poll cycle) as explicit outcome
parameters and state-transition functions.
-/

namespace ACDL

/-! ## SCPI protocol client (`scpiHelper.ts`)

`sendCommand` races the socket's next `data` event against a 1000 ms timer
and rejects only on a socket `error` event.  We model the race outcome as an
explicit `SendEvent` and the promise as `Except Unit ScpiResult`. -/

/-- Result object `{ successful, msg }` produced by `sendCommand`. -/
structure ScpiResult where
  successful : Bool
  msg : String
deriving DecidableEq, Repr

/-- Which of the three raced socket events fires first for one command. -/
inductive SendEvent where
  | dataArrives (data : String)
  | timeoutFires
  | socketError
deriving DecidableEq, Repr

/-- Model of `sendCommand(client, command)` from `scpiHelper.ts`: on `data`, resolve
`{successful:true, msg:data.toString().trim()}`; on the 1000 ms timeout,
resolve `{successful:true, msg:'no data recieved'}` (spelling as in the
source); on a socket error, reject. -/
def sendCommand (command : String) (ev : SendEvent) : Except Unit ScpiResult :=
  match ev with
  | .dataArrives data => .ok { successful := true, msg := data.trim }
  | .timeoutFires => .ok { successful := true, msg := "no data recieved" }
  | .socketError => .error ()

/-- The SCPI commands the command layer writes to a socket.  Numeric
arguments are carried as `ℚ` instead of rendering them into the command
string. -/
inductive ScpiCommand where
  | idn
  | sourFuncVolt
  | sourCurrLimPos (a : ℚ)
  | sourCurrLimNeg (a : ℚ)
  | sourVoltLev (v : ℚ)
  | sourFuncCurr
  | sourCurr (a : ℚ)
  | sourVoltLimPos (v : ℚ)
  | measPow
  | outpOn
  | outpOff
  | instGroFunc (g : String)
deriving DecidableEq, Repr

/-- Model of `getSinkPowerValue({HostIp})`: `createClient` first sends `*IDN?`
(rejecting if that command's socket errors), then sends `MEAS:POW?`, forces
`successful := true` on the result and returns it. -/
def getSinkPowerValue (idnEv measEv : SendEvent) : Except Unit ScpiResult :=
  match sendCommand "*IDN?" idnEv with
  | .error e => .error e
  | .ok _ =>
    match sendCommand "MEAS:POW?" measEv with
    | .error e => .error e
    | .ok r => .ok { r with successful := true }

/-- Command sequence of `setVoltagePriorityMode`: connect (`*IDN?` probe),
`SOUR:FUNC VOLT`, positive current limit `|c|`, negative current limit
`-|c|`, then the voltage level. -/
def setVoltagePriorityModeCommands (HostIp : String)
    (OutputVoltageLimitCV OutputCurrentLimitCV : ℚ) : List ScpiCommand :=
  let maxCurrent := |OutputCurrentLimitCV|
  let minCurrent := -|OutputCurrentLimitCV|
  [ScpiCommand.idn, ScpiCommand.sourFuncVolt,
   ScpiCommand.sourCurrLimPos maxCurrent,
   ScpiCommand.sourCurrLimNeg minCurrent,
   ScpiCommand.sourVoltLev OutputVoltageLimitCV]

/-- Argument object of the `setOutput` IPC handler. -/
structure SetOutputArgs where
  HostIp : String
  OutputState : Bool
deriving DecidableEq, Repr

/-- Command sequence of `setOutput`: connect, then `OUTP ON` or `OUTP OFF`
according to `args.OutputState`. -/
def setOutputCommands (args : SetOutputArgs) : List ScpiCommand :=
  [ScpiCommand.idn,
   if args.OutputState then ScpiCommand.outpOn else ScpiCommand.outpOff]

/-- Argument object of the `setCurrentSetPoint` IPC handler.  The handler in
`index.ts` assigns to a property named `current`, which `setCurrentSetPoint`
itself never reads; in JavaScript that assignment just attaches an extra
property, modelled as the `current` field. -/
structure SetCurrentSetPointArgs where
  HostIp : String
  CurrentSetPoint : ℚ
  current : Option ℚ
deriving DecidableEq, Repr

/-- Command sequence of `setCurrentSetPoint`: connect, then
`SOUR:CURR ${args.CurrentSetPoint}`. -/
def setCurrentSetPointCommands (args : SetCurrentSetPointArgs) :
    List ScpiCommand :=
  [ScpiCommand.idn, ScpiCommand.sourCurr args.CurrentSetPoint]

/-! ## IPC control-surface handlers (`electron/index.ts`)

The `setOutput` handler: `if (getLastVoltageCDS() < 200) args.OutputState =
false;` — the `setCurrentSetPoint` handler:
`if (getLastVoltageCDS() < 200) args.current = 0;`. -/

/-- The `ipcMain.handle('setOutput')` guard: force `OutputState := false`
when the last-cached CDS voltage is below 200. -/
def handleSetOutput (lastVoltageCDS : ℚ) (args : SetOutputArgs) :
    SetOutputArgs :=
  if lastVoltageCDS < 200 then { args with OutputState := false } else args

/-- The `ipcMain.handle('setCurrentSetPoint')` guard: when the last-cached
CDS voltage is below 200 it assigns `args.current = 0` — a property that
`setCurrentSetPoint` never reads (`args.CurrentSetPoint` is left as the
caller supplied it). -/
def handleSetCurrentSetPoint (lastVoltageCDS : ℚ)
    (args : SetCurrentSetPointArgs) : SetCurrentSetPointArgs :=
  if lastVoltageCDS < 200 then { args with current := some 0 } else args

/-! ## Loss-compensated current computation (`defineVoltageCurrent`) -/

/-- Model of `parseFloat(x.toFixed(2))`: round to 2 decimal places (nearest
hundredth, halves toward `+∞`). -/
def round2 (x : ℚ) : ℚ := (Int.floor (x * 100 + 1 / 2) : ℚ) / 100

/-- Model of `defineVoltageCurrent({powerInkW, voltage})` from `scpiHelper.ts`:
`PowerWithLoss = 0.0035·p² + 0.9858·p + 0.5878`,
`AdjustedPowerinkW = 2·p − PowerWithLoss`,
`current = round2(AdjustedPowerinkW·1000 / voltage)`. -/
def defineVoltageCurrent (powerInkW voltage : ℚ) : ℚ :=
  let PowerWithLoss :=
    (35 / 10000) * powerInkW ^ 2 + (9858 / 10000) * powerInkW + 5878 / 10000
  let AdjustedPowerinkW := 2 * powerInkW - PowerWithLoss
  round2 (AdjustedPowerinkW * 1000 / voltage)

/-! ## Polling state (`pollHelper.ts`)

The module-level globals `functionGlobals` (`intervalActive`, `powerValue`,
`voltageValue`, `currentValue`) and `adapter`, plus ghost instrumentation
counting how many CDS connections were ever opened (`opensCount`) and how
many are currently live (`liveConnections`). -/

/-- Model of `Math.round`: nearest integer, halves toward `+∞`. -/
def jsRound (x : ℚ) : ℤ := Int.floor (x + 1 / 2)

/-- The `pollHelper.ts` CDS polling globals.  `adapter` holds the id of the
currently owned `CdsTcpClient`, `none` when the module variable is
`undefined`. -/
structure PollState where
  intervalActive : Bool
  powerValue : ℚ
  voltageValue : ℚ
  currentValue : ℚ
  adapter : Option ℕ
  opensCount : ℕ
  liveConnections : ℕ
deriving DecidableEq, Repr

/-- Module state at load: `intervalActive:false`, values zeroed, no
adapter. -/
def initialPollState : PollState :=
  { intervalActive := false, powerValue := 0, voltageValue := 0,
    currentValue := 0, adapter := none, opensCount := 0,
    liveConnections := 0 }

/-- Getter `getLastPowerCDS()`. -/
def getLastPowerCDS (s : PollState) : ℚ := s.powerValue

/-- Getter `getLastVoltageCDS()`. -/
def getLastVoltageCDS (s : PollState) : ℚ := s.voltageValue

/-- Getter `getLastCurrentCDS()`. -/
def getLastCurrentCDS (s : PollState) : ℚ := s.currentValue

/-- Model of `stopPollingCDS()`: set `intervalActive := false`; if an adapter exists,
stop its global-status stream, disconnect it and clear the reference (each
step guarded by its own try/catch). -/
def stopPollingCDS (s : PollState) : PollState :=
  let s := { s with intervalActive := false }
  match s.adapter with
  | some _ => { s with adapter := none,
                       liveConnections := s.liveConnections - 1 }
  | none => s

/-- The synchronous prefix of `startPollingCDS(ip, intervalMs)` up to the
point where the first register read is issued: if `intervalActive`, call
`stopPollingCDS()` (and wait 100 ms); then, if `adapter === undefined`,
construct a new `CdsTcpClient`, start its global status and set
`intervalActive := true`. -/
def startPollingCDSEntry (s : PollState) : PollState :=
  let s := if s.intervalActive then stopPollingCDS s else s
  match s.adapter with
  | none => { s with adapter := some s.opensCount,
                     opensCount := s.opensCount + 1,
                     liveConnections := s.liveConnections + 1,
                     intervalActive := true }
  | some _ => s

/-- The body of one successful CDS poll cycle, given the three raw register
reads (voltage, power, current): `voltageValue := Math.round(resultV)`;
`power := Math.round(resultP)`, stored only `if (power > 0)`;
`currentValue := Math.round(resultC)`. -/
def cycleStep (s : PollState) (v p c : ℚ) : PollState :=
  let s1 := { s with voltageValue := (jsRound v : ℚ) }
  let power := jsRound p
  let s2 := if 0 < power then { s1 with powerValue := (power : ℚ) } else s1
  { s2 with currentValue := (jsRound c : ℚ) }

/-- Run a list of poll cycles, threading the state. -/
def runCycles (s : PollState) : List (ℚ × ℚ × ℚ) → PollState
  | [] => s
  | (v, p, c) :: rest => runCycles (cycleStep s v p c) rest

/-- Which register read a poll cycle was awaiting when `stopPollingCDS` ran. -/
inductive Stage where
  | atVoltage
  | atPower
  | atCurrent
deriving DecidableEq, Repr

/-- Completion of a poll cycle that was awaiting one register read when
`stopPollingCDS` ran, the in-flight read resolving with `val`.  The resolved
value is still stored in its cache field; the next read then dereferences
the now-`undefined` module `adapter` and throws, which the cycle's `catch`
swallows; the `finally` block reschedules only `if (functionGlobals.
intervalActive)`.  Returns the final state and whether a reschedule was
issued. -/
def finishCycleAfterStop (s : PollState) (val : ℚ) (st : Stage) :
    PollState × Bool :=
  match st with
  | .atVoltage =>
    let s1 := { s with voltageValue := (jsRound val : ℚ) }
    (s1, s1.intervalActive)
  | .atPower =>
    let power := jsRound val
    let s1 := if 0 < power then { s with powerValue := (power : ℚ) } else s
    (s1, s1.intervalActive)
  | .atCurrent =>
    let s1 := { s with currentValue := (jsRound val : ℚ) }
    (s1, s1.intervalActive)

/-! ## Sink-power polling (`pollHelper.ts`) -/

/-- The `setInterval` closure's `SinkPowerValue` initial value. -/
def initialSinkClosure : ScpiResult := { successful := false, msg := "" }

/-- Sink-power polling state: whether `sinkPowerInterval` is set, the
closure variable `SinkPowerValue`, and the module-level `lastSinkPReal`
(initially `null`). -/
structure SinkState where
  running : Bool
  closureValue : ScpiResult
  lastSinkPReal : Option ScpiResult
deriving DecidableEq, Repr

/-- Module state at load: no interval, `lastSinkPReal = null`. -/
def initialSinkState : SinkState :=
  { running := false, closureValue := initialSinkClosure,
    lastSinkPReal := none }

/-- Model of `startSinkPowerPolling`: when no interval is set, install
the interval with a fresh `SinkPowerValue` equal to `initialSinkClosure`. -/
def startSinkPowerPolling (s : SinkState) : SinkState :=
  if s.running then s
  else { s with running := true, closureValue := initialSinkClosure }

/-- One tick of the sink-power interval.  `outcome` is the settled
`getSinkPowerValue` promise (`.ok (some r)` resolution, `.ok none` a
resolution with `undefined`, `.error` a rejection).  On resolution the
closure variable is overwritten (with `successful` forced `true`) and cached
in `lastSinkPReal`; on rejection the `catch` assigns
`lastSinkPReal = SinkPowerValue`, i.e. the closure variable's current
value. -/
def sinkTick (outcome : Except Unit (Option ScpiResult)) (s : SinkState) :
    SinkState :=
  match outcome with
  | .ok r =>
    let v := match r with
      | some r => r
      | none => { successful := false, msg := "" }
    let v := { v with successful := true }
    { s with closureValue := v, lastSinkPReal := some v }
  | .error _ => { s with lastSinkPReal := some s.closureValue }

/-- Getter `getLastSinkPowerValue()`. -/
def getLastSinkPowerValue (s : SinkState) : Option ScpiResult :=
  s.lastSinkPReal

/-! ## CSV logging (`pollHelper.ts`) -/

/-- The header row written by `initializeCsvLogging`. -/
def csvHeader : String :=
  "Timestamp,CDS_Power_W,CDS_Voltage_V,CDS_Current_A,Sink_Power_W,Sink_Success\n"

/-- CSV logging state: the module variables `csvLoggingEnabled` and
`csvFilePath`, plus the files created so far as (name, content) pairs.
File names are relative to `storagePath`. -/
structure CsvState where
  enabled : Bool
  filePath : String
  files : List (String × String)
deriving DecidableEq, Repr

/-- Module state at load. -/
def initialCsvState : CsvState :=
  { enabled := false, filePath := "", files := [] }

/-- Model of `initializeCsvLogging()`: build the file name from the current
timestamp, create the file and write the header row.  The timestamp string
(`new Date().toISOString().replace(/[:.]/g, '-').slice(0, 19)`) is passed in
as the ambient clock value. -/
def initializeCsvLogging (timestamp : String) (s : CsvState) : CsvState :=
  let path := "messwerte_" ++ timestamp ++ ".csv"
  { s with filePath := path, files := s.files ++ [(path, csvHeader)] }

/-- Result object of `startCsvLogging` / `stopCsvLogging`. -/
structure CsvStartResult where
  success : Bool
  filePath : Option String
  message : Option String
deriving DecidableEq, Repr

/-- Model of `startCsvLogging()`: if not already enabled, enable and initialize a new
file, returning `{success:true, filePath}`; otherwise return
`{success:false, message:'CSV logging already active'}`. -/
def startCsvLogging (timestamp : String) (s : CsvState) :
    CsvState × CsvStartResult :=
  if !s.enabled then
    let s' := initializeCsvLogging timestamp { s with enabled := true }
    (s', { success := true, filePath := some s'.filePath, message := none })
  else
    (s, { success := false, filePath := none,
          message := some "CSV logging already active" })

/-! ## Helper lemmas -/

/-- Evaluate `round2` at an input whose scaled floor is known. -/
lemma round2_eq (x : ℚ) (n : ℤ) (h1 : (n : ℚ) ≤ x * 100 + 1 / 2)
    (h2 : x * 100 + 1 / 2 < n + 1) : round2 x = (n : ℚ) / 100 := by
  unfold round2
  rw [Int.floor_eq_iff.mpr ⟨h1, h2⟩]

/-- Evaluate `jsRound` at an input whose floor is known. -/
lemma jsRound_eq (x : ℚ) (n : ℤ) (h1 : (n : ℚ) ≤ x + 1 / 2)
    (h2 : x + 1 / 2 < n + 1) : jsRound x = n := by
  unfold jsRound
  exact Int.floor_eq_iff.mpr ⟨h1, h2⟩

/-- Monotonicity of `round2`. -/
lemma round2_mono {x y : ℚ} (h : x ≤ y) : round2 x ≤ round2 y := by
  unfold round2
  have hf : Int.floor (x * 100 + 1 / 2) ≤ Int.floor (y * 100 + 1 / 2) :=
    Int.floor_mono (by linarith)
  have hq : ((Int.floor (x * 100 + 1 / 2) : ℚ)) ≤
      (Int.floor (y * 100 + 1 / 2) : ℚ) := by exact_mod_cast hf
  linarith

/-- Two strings with equally long, distinct prefixes stay distinct under any
suffixes. -/
lemma prefix_clash (p q x y : String) (hlen : p.data.length = q.data.length)
    (hne : p.data ≠ q.data) : p ++ x ≠ q ++ y := by
  intro h
  have hd : (p ++ x).data = (q ++ y).data := congrArg String.data h
  rw [String.data_append, String.data_append] at hd
  exact hne (List.append_inj hd hlen).1

/-! ## Claims -/

/-- C1: at cached CDS voltage 150 (below 200) the `setOutput` handler does
force the command to `OUTP OFF`, and at 250 it passes `OUTP ON` through; but
the `setCurrentSetPoint` handler's guard assigns `args.current = 0`, a
property `setCurrentSetPoint` never reads, so the command actually sent is
`SOUR:CURR 10` — the caller's setpoint, not the claimed `SOUR:CURR 0`. -/
theorem C1_setpoint_guard_ineffective :
    setOutputCommands (handleSetOutput 150 ⟨"10.0.0.1", true⟩) =
      [ScpiCommand.idn, ScpiCommand.outpOff] ∧
    setOutputCommands (handleSetOutput 250 ⟨"10.0.0.1", true⟩) =
      [ScpiCommand.idn, ScpiCommand.outpOn] ∧
    setCurrentSetPointCommands
        (handleSetCurrentSetPoint 150 ⟨"10.0.0.1", 10, none⟩) =
      [ScpiCommand.idn, ScpiCommand.sourCurr 10] ∧
    (handleSetCurrentSetPoint 150 ⟨"10.0.0.1", 10, none⟩).current = some 0 ∧
    [ScpiCommand.idn, ScpiCommand.sourCurr 10] ≠
      [ScpiCommand.idn, ScpiCommand.sourCurr 0] := by
  refine ⟨by decide, by decide, by decide, by decide, by decide⟩

/-- C2 counterexample: on a 1000 ms timeout `sendCommand` resolves with the
sentinel payload `"no data recieved"` (sic), not `"no data received"` as the
claim states. -/
theorem C2_counterexample :
    sendCommand "MEAS:POW?" SendEvent.timeoutFires =
      Except.ok { successful := true, msg := "no data recieved" } ∧
    ({ successful := true, msg := "no data recieved" } : ScpiResult) ≠
      { successful := true, msg := "no data received" } := by
  exact ⟨rfl, by decide⟩

/-- C2 (amended): when no data arrives within 1000 ms and no socket error
occurs, `sendCommand` resolves successfully with
`{successful:true, msg:"no data recieved"}` (the source's spelling) rather
than rejecting, and `getSinkPowerValue` on a `MEAS:POW?` timeout likewise
resolves with that sentinel and does not throw. -/
theorem C2_timeout_resolves (command : String) (idnEv : SendEvent)
    (h : idnEv ≠ SendEvent.socketError) :
    sendCommand command SendEvent.timeoutFires =
      Except.ok { successful := true, msg := "no data recieved" } ∧
    getSinkPowerValue idnEv SendEvent.timeoutFires =
      Except.ok { successful := true, msg := "no data recieved" } := by
  constructor
  · rfl
  · cases idnEv with
    | dataArrives d => rfl
    | timeoutFires => rfl
    | socketError => exact absurd rfl h

/-- C2 witness. -/
theorem C2_timeout_resolves_witness :
    sendCommand "MEAS:POW?" SendEvent.timeoutFires =
      Except.ok { successful := true, msg := "no data recieved" } ∧
    getSinkPowerValue (SendEvent.dataArrives "EA-PS") SendEvent.timeoutFires =
      Except.ok { successful := true, msg := "no data recieved" } :=
  C2_timeout_resolves "MEAS:POW?" (SendEvent.dataArrives "EA-PS") (by decide)

/-- C3 counterexample: after a first `startPollingCDS` the session is Active
with one connection ever opened; a second `startPollingCDS` is not a no-op —
it opens a second connection (open count becomes 2, not 1) and replaces the
session's adapter. -/
theorem C3_counterexample :
    (startPollingCDSEntry initialPollState).intervalActive = true ∧
    (startPollingCDSEntry initialPollState).opensCount = 1 ∧
    (startPollingCDSEntry (startPollingCDSEntry initialPollState)).opensCount
      = 2 ∧
    (startPollingCDSEntry (startPollingCDSEntry initialPollState)).adapter ≠
      (startPollingCDSEntry initialPollState).adapter := by
  refine ⟨by decide, by decide, by decide, by decide⟩

/-- C3 (amended): invoking `startPollingCDS` while a session is Active tears
the existing session down (its adapter is disconnected and replaced by a
fresh one) and opens exactly one new connection, raising the total open
count by one; still at most one connection is live at any time both after
the restart and after a stop. -/
theorem C3_restart_opens_fresh_connection (s : PollState) (a : ℕ)
    (hActive : s.intervalActive = true) (hAdapter : s.adapter = some a)
    (hFresh : a < s.opensCount) (hLive : s.liveConnections = 1) :
    (startPollingCDSEntry s).opensCount = s.opensCount + 1 ∧
    (startPollingCDSEntry s).adapter = some s.opensCount ∧
    (startPollingCDSEntry s).adapter ≠ s.adapter ∧
    (startPollingCDSEntry s).liveConnections = 1 ∧
    (stopPollingCDS s).liveConnections = 0 := by
  have hne : s.opensCount ≠ a := Nat.ne_of_gt hFresh
  simp [startPollingCDSEntry, stopPollingCDS, hActive, hAdapter, hLive, hne]

/-- C3 witness. -/
theorem C3_restart_opens_fresh_connection_witness :
    (startPollingCDSEntry (startPollingCDSEntry initialPollState)).opensCount = (startPollingCDSEntry initialPollState).opensCount + 1 ∧
    (startPollingCDSEntry (startPollingCDSEntry initialPollState)).adapter = some (startPollingCDSEntry initialPollState).opensCount ∧
    (startPollingCDSEntry (startPollingCDSEntry initialPollState)).adapter ≠ (startPollingCDSEntry initialPollState).adapter ∧
    (startPollingCDSEntry (startPollingCDSEntry initialPollState)).liveConnections = 1 ∧
    (stopPollingCDS (startPollingCDSEntry initialPollState)).liveConnections = 0 :=
  C3_restart_opens_fresh_connection (startPollingCDSEntry initialPollState) 0
    (by decide) (by decide) (by decide) (by decide)

/-- C4 counterexample: with a cycle awaiting its voltage read when
`stopPollingCDS` runs, the read's resolution (here 230 V) is still rounded
and written into the voltage cache field after the stop returned — the
pending result IS stored, contradicting the claim; only the reschedule is
suppressed. -/
theorem C4_counterexample :
    (finishCycleAfterStop (stopPollingCDS (startPollingCDSEntry initialPollState)) 230 Stage.atVoltage).1.voltageValue = 230 ∧
    (stopPollingCDS (startPollingCDSEntry initialPollState)).voltageValue = 0 ∧
    (230 : ℚ) ≠ 0 := by
  have h : (finishCycleAfterStop (stopPollingCDS (startPollingCDSEntry initialPollState)) 230 Stage.atVoltage).1.voltageValue = ((jsRound 230 : ℤ) : ℚ) := rfl
  rw [h, jsRound_eq 230 230 (by norm_num) (by norm_num)]
  refine ⟨by norm_num, by decide, by norm_num⟩

/-- C4 (amended): once `stopPollingCDS` has run, the in-flight cycle's
reschedule is suppressed (the `finally` block sees `intervalActive = false`)
and the cycle's remaining reads fail on the cleared adapter, leaving every
other cache field unchanged — but the one read that was in flight at stop
time still completes and its rounded result is written to its cache
field. -/
theorem C4_stop_suppresses_reschedule (s0 : PollState) (val : ℚ)
    (st : Stage) :
    (finishCycleAfterStop (stopPollingCDS s0) val st).2 = false ∧
    (finishCycleAfterStop (stopPollingCDS s0) val Stage.atVoltage).1.voltageValue = ((jsRound val : ℤ) : ℚ) ∧
    (finishCycleAfterStop (stopPollingCDS s0) val Stage.atVoltage).1.powerValue = s0.powerValue ∧
    (finishCycleAfterStop (stopPollingCDS s0) val Stage.atVoltage).1.currentValue = s0.currentValue ∧
    (finishCycleAfterStop (stopPollingCDS s0) val Stage.atPower).1.voltageValue = s0.voltageValue ∧
    (finishCycleAfterStop (stopPollingCDS s0) val Stage.atPower).1.currentValue = s0.currentValue ∧
    (finishCycleAfterStop (stopPollingCDS s0) val Stage.atCurrent).1.currentValue = ((jsRound val : ℤ) : ℚ) ∧
    (finishCycleAfterStop (stopPollingCDS s0) val Stage.atCurrent).1.voltageValue = s0.voltageValue ∧
    (finishCycleAfterStop (stopPollingCDS s0) val Stage.atCurrent).1.powerValue = s0.powerValue := by
  cases hA : s0.adapter <;>
    cases st <;>
      simp [finishCycleAfterStop, stopPollingCDS, hA] <;>
        split <;> simp

/-- C5 counterexample: `defineVoltageCurrent(0, 230)` is `-2.56`, not `0`,
and the result is not monotonically increasing in `powerKw` for fixed
voltage `230 > 0`: at 200 kW it is strictly below its value at 100 kW. -/
theorem C5_counterexample :
    defineVoltageCurrent 0 230 ≠ 0 ∧
    defineVoltageCurrent 200 230 < defineVoltageCurrent 100 230 := by
  have h0 : defineVoltageCurrent 0 230 = ((-256 : ℤ) : ℚ) / 100 := by
    unfold defineVoltageCurrent
    exact round2_eq _ (-256) (by norm_num) (by norm_num)
  have h100 : defineVoltageCurrent 100 230 = ((28623 : ℤ) : ℚ) / 100 := by
    unfold defineVoltageCurrent
    exact round2_eq _ 28623 (by norm_num) (by norm_num)
  have h200 : defineVoltageCurrent 200 230 = ((27066 : ℤ) : ℚ) / 100 := by
    unfold defineVoltageCurrent
    exact round2_eq _ 27066 (by norm_num) (by norm_num)
  rw [h0, h100, h200]
  norm_num

/-- C5 (amended): `defineVoltageCurrent` computes
`round2((2·p − (0.0035·p² + 0.9858·p + 0.5878))·1000 / v)`; at
`(0, 230)` it yields `-2.56` (not `0`); and for fixed voltage `v > 0` it is
monotonically nondecreasing in `powerKw` on the operating range
`p1 ≤ p2`, `p1 + p2 ≤ 289` (beyond the loss parabola's vertex near
`144.9 kW` it decreases). -/
theorem C5_loss_curve (p v p1 p2 : ℚ) (hv : 0 < v) (h12 : p1 ≤ p2)
    (hsum : p1 + p2 ≤ 289) :
    defineVoltageCurrent p v =
      round2 ((2 * p - ((35 / 10000) * p ^ 2 + (9858 / 10000) * p +
        5878 / 10000)) * 1000 / v) ∧
    defineVoltageCurrent 0 230 = -64 / 25 ∧
    defineVoltageCurrent p1 v ≤ defineVoltageCurrent p2 v := by
  refine ⟨rfl, ?_, ?_⟩
  · unfold defineVoltageCurrent
    rw [round2_eq _ (-256) (by norm_num) (by norm_num)]
    norm_num
  · unfold defineVoltageCurrent
    apply round2_mono
    rw [div_le_div_iff_of_pos_right hv]
    nlinarith [mul_nonneg (sub_nonneg.mpr h12)
      (by linarith : (0 : ℚ) ≤ 289 - (p1 + p2))]

/-- C5 witness. -/
theorem C5_loss_curve_witness :
    defineVoltageCurrent 3 230 =
      round2 ((2 * 3 - ((35 / 10000) * 3 ^ 2 + (9858 / 10000) * 3 +
        5878 / 10000)) * 1000 / 230) ∧
    defineVoltageCurrent 0 230 = -64 / 25 ∧
    defineVoltageCurrent 1 230 ≤ defineVoltageCurrent 2 230 :=
  C5_loss_curve 3 230 1 2 (by norm_num) (by norm_num) (by norm_num)

/-- C6: in every poll cycle the voltage and current cache fields are
overwritten with the newly read rounded samples, while the power field
takes the rounded power sample exactly when it is strictly positive and
otherwise retains its previous value. -/
theorem C6_power_sample_filter (s : PollState) (v p c : ℚ) :
    (cycleStep s v p c).voltageValue = ((jsRound v : ℤ) : ℚ) ∧
    (cycleStep s v p c).currentValue = ((jsRound c : ℤ) : ℚ) ∧
    (cycleStep s v p c).powerValue =
      (if 0 < jsRound p then ((jsRound p : ℤ) : ℚ) else s.powerValue) := by
  unfold cycleStep
  by_cases h : 0 < jsRound p <;> simp [h]

/-- C7 counterexample: before any successful read the cached sink-power
value is `null`; the very first failing tick replaces it with the closure's
initial failed result (successful false, empty msg) instead of leaving it
`none`, contradicting the claim's "the cache then stays none". -/
theorem C7_counterexample :
    getLastSinkPowerValue initialSinkState = none ∧
    getLastSinkPowerValue
        (sinkTick (Except.error ()) (startSinkPowerPolling initialSinkState))
      = some initialSinkClosure ∧
    some initialSinkClosure ≠ (none : Option ScpiResult) := by
  refine ⟨rfl, rfl, by decide⟩

/-- C7 (amended): a failing tick that follows a successful read leaves the
cached sink-power result exactly as the success left it (stale-value
fallback), and no tick ever nulls the cache out; but a failing tick that
arrives before any success sets the cache to the closure's initial failed
result (successful false, empty msg) rather than leaving it `none`. -/
theorem C7_stale_value_fallback (s : SinkState) (r : ScpiResult)
    (o : Except Unit (Option ScpiResult)) :
    getLastSinkPowerValue
        (sinkTick (Except.error ()) (sinkTick (Except.ok (some r)) s)) =
      getLastSinkPowerValue (sinkTick (Except.ok (some r)) s) ∧
    getLastSinkPowerValue (sinkTick o s) ≠ none ∧
    getLastSinkPowerValue
        (sinkTick (Except.error ()) (startSinkPowerPolling initialSinkState))
      = some initialSinkClosure := by
  refine ⟨rfl, ?_, rfl⟩
  cases o with
  | ok r' => cases r' <;> simp [sinkTick, getLastSinkPowerValue]
  | error e => simp [sinkTick, getLastSinkPowerValue]

/-- C8 counterexample: the file created by `startCsvLogging` is named
`messwerte_<timestamp>.csv`, which does not match the claimed pattern
`measwerte_<timestamp>.csv` for any timestamp. -/
theorem C8_counterexample :
    (startCsvLogging "2026-10-11T12-00-00" initialCsvState).1.filePath =
      "messwerte_" ++ "2026-10-11T12-00-00" ++ ".csv" ∧
    ¬ ∃ ts : String,
      (startCsvLogging "2026-10-11T12-00-00" initialCsvState).1.filePath =
        "measwerte_" ++ (ts ++ ".csv") := by
  constructor
  · rfl
  · rintro ⟨ts, h⟩
    have h' : ("messwerte_" ++ "2026-10-11T12-00-00" ++ ".csv" : String) =
        "measwerte_" ++ (ts ++ ".csv") := h
    rw [String.append_assoc] at h'
    exact prefix_clash "messwerte_" "measwerte_" _ _ (by decide) (by decide)
      h'

/-- C8 (amended): starting CSV logging while not enabled creates exactly one
new file named `messwerte_<timestamp>.csv` whose initial content is exactly
the header row
`Timestamp,CDS_Power_W,CDS_Voltage_V,CDS_Current_A,Sink_Power_W,Sink_Success`,
and returns success; a second start while already enabled returns a failure
status and creates no file. -/
theorem C8_csv_start (ts ts2 : String) (s : CsvState)
    (h : s.enabled = false) :
    (startCsvLogging ts s).2.success = true ∧
    (startCsvLogging ts s).1.filePath = "messwerte_" ++ ts ++ ".csv" ∧
    (startCsvLogging ts s).1.files =
      s.files ++ [("messwerte_" ++ ts ++ ".csv", csvHeader)] ∧
    (startCsvLogging ts s).1.enabled = true ∧
    (startCsvLogging ts2 (startCsvLogging ts s).1).2.success = false ∧
    (startCsvLogging ts2 (startCsvLogging ts s).1).1 =
      (startCsvLogging ts s).1 := by
  simp [startCsvLogging, initializeCsvLogging, h, String.append_assoc]

/-- C8 witness. -/
theorem C8_csv_start_witness :
    (startCsvLogging "2026-10-11T12-00-00" initialCsvState).2.success = true ∧
    (startCsvLogging "2026-10-11T12-00-00" initialCsvState).1.filePath = "messwerte_" ++ "2026-10-11T12-00-00" ++ ".csv" ∧
    (startCsvLogging "2026-10-11T12-00-00" initialCsvState).1.files = initialCsvState.files ++ [("messwerte_" ++ "2026-10-11T12-00-00" ++ ".csv", csvHeader)] ∧
    (startCsvLogging "2026-10-11T12-00-00" initialCsvState).1.enabled = true ∧
    (startCsvLogging "later" (startCsvLogging "2026-10-11T12-00-00" initialCsvState).1).2.success = false ∧
    (startCsvLogging "later" (startCsvLogging "2026-10-11T12-00-00" initialCsvState).1).1 = (startCsvLogging "2026-10-11T12-00-00" initialCsvState).1 :=
  C8_csv_start "2026-10-11T12-00-00" "later" initialCsvState rfl

/-- The integrality of the three CDS cache fields is preserved by every poll
cycle. -/
lemma runCycles_den (reads : List (ℚ × ℚ × ℚ)) :
    ∀ s : PollState, s.powerValue.den = 1 → s.voltageValue.den = 1 →
      s.currentValue.den = 1 →
      (runCycles s reads).powerValue.den = 1 ∧
      (runCycles s reads).voltageValue.den = 1 ∧
      (runCycles s reads).currentValue.den = 1 := by
  induction reads with
  | nil => intro s hp hv hc; exact ⟨hp, hv, hc⟩
  | cons head tail ih =>
    intro s hp hv hc
    obtain ⟨v, p, c⟩ := head
    refine ih (cycleStep s v p c) ?_ ?_ ?_
    · unfold cycleStep
      by_cases h : 0 < jsRound p <;> simp [h, hp]
    · unfold cycleStep
      by_cases h : 0 < jsRound p <;> simp [h]
    · unfold cycleStep
      by_cases h : 0 < jsRound p <;> simp [h]

/-- C9: starting from the zero-initialized cache, after any sequence of
poll cycles the values returned by `getLastPowerCDS`, `getLastVoltageCDS`
and `getLastCurrentCDS` are integers (denominator 1): every stored sample
went through `Math.round`. -/
theorem C9_cache_values_integral (reads : List (ℚ × ℚ × ℚ)) :
    (getLastPowerCDS (runCycles initialPollState reads)).den = 1 ∧
    (getLastVoltageCDS (runCycles initialPollState reads)).den = 1 ∧
    (getLastCurrentCDS (runCycles initialPollState reads)).den = 1 :=
  runCycles_den reads initialPollState rfl rfl rfl

/-- C10: `setVoltagePriorityMode` issues the identical command sequence for
a current limit `c` and for `-c` — the positive limit sent is `|c|` and the
negative limit `-|c|` either way. -/
theorem C10_current_limit_abs_invariance (host : String) (vlim clim : ℚ) :
    setVoltagePriorityModeCommands host vlim (-clim) =
      setVoltagePriorityModeCommands host vlim clim := by
  simp [setVoltagePriorityModeCommands, abs_neg]

end ACDL
